import Mathlib

/-!
Verification of the error-reporting module of a streaming XML tokenizer
(`src/error.rs`): the `ErrorPos`, `StreamError` and `Error` types, their
`Display` renderings, and the panic behaviour of the sequence-carrying
variants.

The embedding is shallow. `Display` implementations that can panic
(indexing `chars[0]` on an empty vector, `String::from_utf8(..).unwrap()`
on a non-UTF-8 byte) are modelled as functions into `Option String`,
where `none` stands for a panic. Bytes are `Nat` values (meaningful when
`< 256`); Rust `char` is Lean `Char` (both are Unicode scalar values).
-/

/-- Position of the error: row/line and column, both `u32` in the source.
Modelled with `Nat`; claims about 32-bit inputs carry `< 2^32` bounds. -/
structure ErrorPos where
  row : Nat
  col : Nat
deriving DecidableEq, Repr

namespace ErrorPos

/-- `ErrorPos::new(row, col)`: pure constructor, no validation. -/
def new (row col : Nat) : ErrorPos := ⟨row, col⟩

/-- `impl fmt::Display for ErrorPos`: `write!(f, "{}:{}", self.row, self.col)`. -/
def display (p : ErrorPos) : String :=
  toString p.row ++ ":" ++ toString p.col

end ErrorPos

/-- `TokenType`.

Modelled from the spec: `TokenType` lives outside the provided source
(`src/error.rs` imports it from the crate root). Per the spec it is an
opaque, `Display`-capable enumeration; this module uses only its
`Display` rendering, so it is modelled as a wrapper around that rendered
string. -/
structure TokenType where
  display : String
deriving DecidableEq, Repr

/-- `enum StreamError`: low-level stream-parser errors. -/
inductive StreamError where
  | unexpectedEndOfStream : StreamError
  | invalidName : StreamError
  | invalidChar (chars : List Nat) (pos : ErrorPos) : StreamError
  | invalidQuote (c : Char) (pos : ErrorPos) : StreamError
  | invalidSpace (c : Char) (pos : ErrorPos) : StreamError
  | invalidString (strings : List String) (pos : ErrorPos) : StreamError
  | invalidReference : StreamError
  | invalidExternalID : StreamError
deriving DecidableEq, Repr

/-- `String::from_utf8(vec![b]).unwrap()`: succeeds exactly when the single
byte `b` is valid one-byte UTF-8, i.e. `b < 0x80`; otherwise it panics
(`none`). On success the resulting string is the one ASCII character. -/
def fromUtf8Single (b : Nat) : Option String :=
  if b < 0x80 then some (String.singleton (Char.ofNat b)) else none

/-- `chars.iter().skip(1).map(|c| String::from_utf8(vec![*c]).unwrap()).collect()`
applied to the tail list: panics (`none`) on the first non-ASCII byte. -/
def collectUtf8 : List Nat → Option (List String)
  | [] => some []
  | b :: rest =>
      match fromUtf8Single b, collectUtf8 rest with
      | some s, some l => some (s :: l)
      | _, _ => none

namespace StreamError

/-- `impl fmt::Display for StreamError`. `none` models a panic: the
`InvalidChar` arm first maps `from_utf8(..).unwrap()` over `chars[1..]`
and then indexes `chars[0]` (cast `as char`); the `InvalidString` arm
slices `strings[1..]` and indexes `strings[0]`. Both index operations
panic on an empty vector. -/
def displayFmt : StreamError → Option String
  | unexpectedEndOfStream => some "unexpected end of stream"
  | invalidName => some "invalid name token"
  | invalidChar chars pos => do
      let list ← collectUtf8 (chars.drop 1)
      let actual ← chars.head?
      pure ("expected '" ++ String.intercalate "', '" list ++ "' not '"
            ++ String.singleton (Char.ofNat actual) ++ "' at " ++ pos.display)
  | invalidQuote c pos =>
      some ("expected quote mark not '" ++ String.singleton c ++ "' at " ++ pos.display)
  | invalidSpace c pos =>
      some ("expected space not '" ++ String.singleton c ++ "' at " ++ pos.display)
  | invalidString strings pos => do
      let actual ← strings.head?
      pure ("expected '" ++ String.intercalate "', '" (strings.drop 1) ++ "' not '"
            ++ actual ++ "' at " ++ pos.display)
  | invalidReference => some "invalid reference"
  | invalidExternalID => some "invalid ExternalID"

/-- `impl error::Error for StreamError`: the `description` method. -/
def description (_ : StreamError) : String := "an XML stream parsing error"

end StreamError

/-- `enum Error`: top-level parser errors. -/
inductive Error where
  | invalidToken (tokenType : TokenType) (pos : ErrorPos) (cause : Option StreamError) : Error
  | unexpectedToken (tokenType : TokenType) (pos : ErrorPos) : Error
  | unknownToken (pos : ErrorPos) : Error
deriving DecidableEq, Repr

namespace Error

/-- `impl fmt::Display for Error`. The `Some cause` arm interpolates the
cause's own `Display` output, hence propagates its panic (`none`). -/
def displayFmt : Error → Option String
  | invalidToken tokenType pos (some cause) => do
      let c ← cause.displayFmt
      pure ("invalid token '" ++ tokenType.display ++ "' at " ++ pos.display
            ++ " cause " ++ c)
  | invalidToken tokenType pos none =>
      some ("invalid token '" ++ tokenType.display ++ "' at " ++ pos.display)
  | unexpectedToken tokenType pos =>
      some ("unexpected token '" ++ tokenType.display ++ "' at " ++ pos.display)
  | unknownToken pos =>
      some ("unknown token at " ++ pos.display)

/-- `impl error::Error for Error`: the `description` method. -/
def description (_ : Error) : String := "an XML parsing error"

end Error

/-- A byte rendered as a character (the spec's wording): the Unicode code
point of the same numeric value, as a one-character string. -/
def renderByteAsChar (b : Nat) : String := String.singleton (Char.ofNat b)

/-- The spec's rendering formula for `InvalidChar(bytes, pos)`:
`"expected '{e1}', '{e2}', ... not '{actual}' at {pos}"`, with
`actual = bytes[0]` rendered as a character and `e1, e2, ...` the bytes of
`bytes[1:]` each rendered as a character, joined with `"', '"`. -/
def specInvalidCharRendering (bytes : List Nat) (pos : ErrorPos) : String :=
  "expected '" ++ String.intercalate "', '" ((bytes.drop 1).map renderByteAsChar)
    ++ "' not '" ++ renderByteAsChar (bytes.headD 0) ++ "' at " ++ pos.display

/-- The spec's rendering formula for `InvalidString(strings, pos)`:
`"expected '{e1}', '{e2}', ... not '{actual}' at {pos}"`, with
`actual = strings[0]` and the expected list `strings[1:]` joined with
`"', '"`. -/
def specInvalidStringRendering (strings : List String) (pos : ErrorPos) : String :=
  "expected '" ++ String.intercalate "', '" (strings.drop 1)
    ++ "' not '" ++ strings.headD "" ++ "' at " ++ pos.display

lemma collectUtf8_all_ascii (l : List Nat) (h : ∀ b ∈ l, b < 0x80) :
    collectUtf8 l = some (l.map renderByteAsChar) := by
  induction l with
  | nil => rfl
  | cons b rest ih =>
      have hb : b < 0x80 := h b (List.mem_cons_self b rest)
      have hrest : ∀ x ∈ rest, x < 0x80 := fun x hx => h x (List.mem_cons_of_mem b hx)
      simp [collectUtf8, fromUtf8Single, hb, ih hrest, renderByteAsChar]

lemma collectUtf8_none_of_bad (l : List Nat) (x : Nat) (hx : x ∈ l) (hge : 0x80 ≤ x) :
    collectUtf8 l = none := by
  induction l with
  | nil => cases hx
  | cons b rest ih =>
      rcases List.mem_cons.mp hx with rfl | hmem
      · simp [collectUtf8, fromUtf8Single, Nat.not_lt.mpr hge]
      · cases hfb : fromUtf8Single b <;> simp [collectUtf8, hfb, ih hmem]

lemma collectUtf8_isSome_iff (l : List Nat) :
    (collectUtf8 l).isSome ↔ ∀ b ∈ l, b < 0x80 := by
  constructor
  · intro h
    by_contra hc
    push_neg at hc
    obtain ⟨x, hx, hge⟩ := hc
    rw [collectUtf8_none_of_bad l x hx hge] at h
    simp at h
  · intro h
    rw [collectUtf8_all_ascii l h]
    rfl

lemma invalidChar_display_as_map (a : Nat) (rest : List Nat) (pos : ErrorPos) :
    StreamError.displayFmt (.invalidChar (a :: rest) pos)
      = (collectUtf8 rest).map (fun list =>
          "expected '" ++ String.intercalate "', '" list ++ "' not '"
            ++ String.singleton (Char.ofNat a) ++ "' at " ++ pos.display) := by
  cases h : collectUtf8 rest <;> simp [StreamError.displayFmt, h]

/-- C1 (amended): for every non-empty byte sequence whose tail bytes are all
ASCII (`< 0x80`), the Display rendering of `InvalidChar(bytes, pos)` is
defined and equals the spec formula `"expected '{e1}', '{e2}', ... not
'{actual}' at {pos}"` with `actual = bytes[0]` rendered as a character and
`e1, e2, ...` the bytes of `bytes[1:]` each rendered as a character and
joined with `"', '"` (empty list when `bytes[1:]` is empty). -/
theorem streamError_invalidChar_display_of_ascii_expected
    (b : Nat) (rest : List Nat) (pos : ErrorPos) (h : ∀ x ∈ rest, x < 0x80) :
    StreamError.displayFmt (.invalidChar (b :: rest) pos)
      = some (specInvalidCharRendering (b :: rest) pos) := by
  simp [StreamError.displayFmt, collectUtf8_all_ascii rest h,
    specInvalidCharRendering, renderByteAsChar]

/-- Witness for C1 at `bytes = [b'x', b'a', b'b']`, `pos = (1, 1)`: the
rendering is the literal claimed by the spec. -/
theorem streamError_invalidChar_display_of_ascii_expected_witness :
    StreamError.displayFmt (.invalidChar [120, 97, 98] (ErrorPos.new 1 1))
      = some "expected 'a', 'b' not 'x' at 1:1" :=
  (streamError_invalidChar_display_of_ascii_expected 120 [97, 98]
    (ErrorPos.new 1 1) (by decide)).trans rfl

/-- Counterexample to C1 as stated: at the non-empty byte sequence
`[b'x', 0xFF]` the code panics (`String::from_utf8(vec![0xFF]).unwrap()`),
so no rendering string exists, contradicting the claim for every non-empty
sequence. -/
theorem streamError_invalidChar_display_not_total :
    StreamError.displayFmt (.invalidChar [120, 255] (ErrorPos.new 1 1)) = none := rfl

/-- C2 (confirmed): for every non-empty sequence of strings, the Display
rendering of `InvalidString(strings, pos)` equals the spec formula with
`actual = strings[0]` and the expected list `strings[1:]` joined with
`"', '"`. -/
theorem streamError_invalidString_display_eq_spec
    (actual : String) (rest : List String) (pos : ErrorPos) :
    StreamError.displayFmt (.invalidString (actual :: rest) pos)
      = some (specInvalidStringRendering (actual :: rest) pos) := by
  simp [StreamError.displayFmt, specInvalidStringRendering]

/-- C3 (confirmed): `Error` Display — `InvalidToken` without cause has no
`" cause ..."` suffix; with a cause it appends `" cause "` followed by the
cause's own Display output (propagating its panic); `UnexpectedToken`
renders as `"unexpected token '{kind}' at {pos}"`; `UnknownToken` renders
as `"unknown token at {pos}"`, independent of any token kind. -/
theorem error_display_rendering (kind : TokenType) (pos : ErrorPos) :
    Error.displayFmt (.invalidToken kind pos none)
      = some ("invalid token '" ++ kind.display ++ "' at " ++ pos.display)
  ∧ (∀ se : StreamError, Error.displayFmt (.invalidToken kind pos (some se))
      = se.displayFmt.map (fun c =>
          "invalid token '" ++ kind.display ++ "' at " ++ pos.display ++ " cause " ++ c))
  ∧ Error.displayFmt (.unexpectedToken kind pos)
      = some ("unexpected token '" ++ kind.display ++ "' at " ++ pos.display)
  ∧ Error.displayFmt (.unknownToken pos)
      = some ("unknown token at " ++ pos.display) := by
  refine ⟨rfl, fun se => ?_, rfl, rfl⟩
  cases h : se.displayFmt <;> simp [Error.displayFmt, h]

/-- C4 (confirmed): on data sequences of length exactly 1, both `InvalidChar`
and `InvalidString` render without panicking, with an empty expected list
(the join over the empty remainder is the empty string). -/
theorem display_total_on_singleton_sequences (b : Nat) (s : String) (pos : ErrorPos) :
    StreamError.displayFmt (.invalidChar [b] pos)
      = some ("expected '' not '" ++ String.singleton (Char.ofNat b) ++ "' at " ++ pos.display)
  ∧ StreamError.displayFmt (.invalidString [s] pos)
      = some ("expected '' not '" ++ s ++ "' at " ++ pos.display) :=
  ⟨rfl, rfl⟩

/-- C6 (confirmed): `ErrorPos::new(row, col)` stores exactly the given field
values with no validation, and Display renders `"{row}:{col}"`. -/
theorem errorPos_new_display (row col : Nat) (_h1 : row < 2 ^ 32) (_h2 : col < 2 ^ 32) :
    (ErrorPos.new row col).row = row ∧ (ErrorPos.new row col).col = col
  ∧ (ErrorPos.new row col).display = toString row ++ ":" ++ toString col :=
  ⟨rfl, rfl, rfl⟩

/-- Witness for C6 at `(3, 7)`: the rendering is the literal `"3:7"`. -/
theorem errorPos_new_display_witness :
    (ErrorPos.new 3 7).row = 3 ∧ (ErrorPos.new 3 7).col = 7
  ∧ (ErrorPos.new 3 7).display = "3:7" := by
  obtain ⟨a, b, c⟩ := errorPos_new_display 3 7 (by norm_num) (by norm_num)
  exact ⟨a, b, c.trans rfl⟩

/-- C7 (confirmed): the remaining `StreamError` variants render to their
fixed diagnostics, and `InvalidQuote`/`InvalidSpace` interpolate the found
character and the position. -/
theorem streamError_fixed_variant_display (c : Char) (pos : ErrorPos) :
    StreamError.displayFmt .unexpectedEndOfStream = some "unexpected end of stream"
  ∧ StreamError.displayFmt .invalidName = some "invalid name token"
  ∧ StreamError.displayFmt .invalidReference = some "invalid reference"
  ∧ StreamError.displayFmt .invalidExternalID = some "invalid ExternalID"
  ∧ StreamError.displayFmt (.invalidQuote c pos)
      = some ("expected quote mark not '" ++ String.singleton c ++ "' at " ++ pos.display)
  ∧ StreamError.displayFmt (.invalidSpace c pos)
      = some ("expected space not '" ++ String.singleton c ++ "' at " ++ pos.display) :=
  ⟨rfl, rfl, rfl, rfl, rfl, rfl⟩

/-- C8 (confirmed): the category-description strings are constant per type,
independent of the active variant. -/
theorem description_constant (e : Error) (se : StreamError) :
    e.description = "an XML parsing error"
  ∧ se.description = "an XML stream parsing error" :=
  ⟨rfl, rfl⟩

/-- C9 (confirmed): Display of `InvalidChar`/`InvalidString` is not total on
empty sequences — indexing element 0 of the empty vector panics, modelled
as `none`. -/
theorem display_panics_on_empty_sequences (pos : ErrorPos) :
    StreamError.displayFmt (.invalidChar [] pos) = none
  ∧ StreamError.displayFmt (.invalidString [] pos) = none :=
  ⟨rfl, rfl⟩

/-- C10 (confirmed): the actual byte and the expected bytes of `InvalidChar`
are treated asymmetrically — rendering succeeds exactly when every expected
byte is ASCII (`< 0x80`), a single-byte `from_utf8(..).unwrap()` panics on
every byte `≥ 0x80`, while the actual byte is cast `as char` and renders,
for any byte value, as the Unicode code point of the same numeric value. -/
theorem invalidChar_expected_actual_asymmetry (a : Nat) (rest : List Nat) (pos : ErrorPos) :
    ((StreamError.displayFmt (.invalidChar (a :: rest) pos)).isSome ↔ ∀ b ∈ rest, b < 0x80)
  ∧ (∀ b, 0x80 ≤ b → fromUtf8Single b = none)
  ∧ ((∀ b ∈ rest, b < 0x80) →
      StreamError.displayFmt (.invalidChar (a :: rest) pos)
        = some ("expected '" ++ String.intercalate "', '" (rest.map renderByteAsChar)
            ++ "' not '" ++ String.singleton (Char.ofNat a) ++ "' at " ++ pos.display)) := by
  refine ⟨?_, ?_, ?_⟩
  · rw [invalidChar_display_as_map, ← collectUtf8_isSome_iff rest]
    cases collectUtf8 rest <;> simp
  · intro b hb
    simp [fromUtf8Single, Nat.not_lt.mpr hb]
  · intro h
    simp [StreamError.displayFmt, collectUtf8_all_ascii rest h]

/-- Witness for C10 at `bytes = [0xFF, b'a']`, `pos = (1, 1)`: the actual
byte `0xFF` renders as the code point U+00FF while an expected byte `0xFF`
would panic. -/
theorem invalidChar_expected_actual_asymmetry_witness :
    StreamError.displayFmt (.invalidChar [255, 97] (ErrorPos.new 1 1))
      = some ("expected 'a' not '" ++ String.singleton (Char.ofNat 255) ++ "' at 1:1")
  ∧ fromUtf8Single 255 = none := by
  obtain ⟨-, h2, h3⟩ := invalidChar_expected_actual_asymmetry 255 [97] (ErrorPos.new 1 1)
  exact ⟨(h3 (by decide)).trans rfl, h2 255 (by norm_num)⟩
